import Mathlib

/-!
A verification development for the teditor terminal text viewer
(src/main.rs). The Rust code is shallowly embedded: the machine
integers (u16, u32, u8) are modelled as Nat; subtractions that the
source guards so they cannot underflow are written as Nat subtraction;
byte input streams are lists of Nat; the side effects of the quit and
fatal-error paths are modelled as lists of terminal actions.
-/

namespace Teditor

/-- Escape string emitted to clear the whole screen (source constant CLEAR_SCREEN). -/
def CLEAR_SCREEN : String := "\x1b[2J"

/-- Escape string emitted to clear to end of line (source constant CLEAR_LINE). -/
def CLEAR_LINE : String := "\x1b[K"

/-- The bytes set_cursor_position(_, 1, 1) writes. -/
def CURSOR_HOME : String := "\x1b[1;1H"

/-- One buffer line: its recorded length and its characters (struct Erow). -/
structure Erow where
  size : Nat
  chars : List Char
deriving DecidableEq, Repr

/-- The editor state (struct EditorConfig, without the opaque termios field). -/
structure EditorConfig where
  screen_rows : Nat
  screen_cols : Nat
  cursor_x : Nat
  cursor_y : Nat
  num_rows : Nat
  rows : List Erow
  row_offset : Nat
  col_offset : Nat
deriving DecidableEq, Repr

/-- The logical keys (enum EditorKey). -/
inductive EditorKey where
  | left
  | right
  | up
  | down
  | pageUp
  | pageDown
  | home
  | endKey
  | delete
deriving DecidableEq, Repr

/-- The u32 discriminant of each EditorKey (Left = 1000, ..., Delete = 1008). -/
def editorKeyCode : EditorKey → Nat
  | .left => 1000
  | .right => 1001
  | .up => 1002
  | .down => 1003
  | .pageUp => 1004
  | .pageDown => 1005
  | .home => 1006
  | .endKey => 1007
  | .delete => 1008

/-- impl TryFrom for EditorKey: Err is modelled as none.  The source first
checks `(key as u8) as u32 == key` (the value fits in a byte) and matches
the byte against the ASCII letters h l k j D C A B; otherwise it matches
the value against the discriminants of Left, Right, Up and Down only. -/
def editorKeyTryFrom (key : Nat) : Option EditorKey :=
  if key % 256 = key then
    if key % 256 = 104 ∨ key % 256 = 68 then some .left
    else if key % 256 = 108 ∨ key % 256 = 67 then some .right
    else if key % 256 = 107 ∨ key % 256 = 65 then some .up
    else if key % 256 = 106 ∨ key % 256 = 66 then some .down
    else none
  else
    if key = editorKeyCode .left then some .left
    else if key = editorKeyCode .right then some .right
    else if key = editorKeyCode .up then some .up
    else if key = editorKeyCode .down then some .down
    else none

/-- fn ctrl_key: mask the character code with 0x1f. -/
def ctrlKey (key : Nat) : Nat := key &&& 31

/-- fn is_cntrl: codes below 32 are control characters. -/
def isCntrl (key : Nat) : Prop := key < 32

instance (key : Nat) : Decidable (isCntrl key) := by
  unfold isCntrl; infer_instance

/-- fn read_input: one byte from the stream; an exhausted stream reads as 0
(the VTIME read timeout returns no data and the buffer stays zeroed). -/
def readInput : List Nat → Nat × List Nat
  | [] => (0, [])
  | b :: rest => (b, rest)

/-- fn read_key: decode one keypress, following escape sequences, into the
u32 the source returns (an EditorKey discriminant or the raw first byte). -/
def readKey (input : List Nat) : Nat :=
  let r0 := readInput input
  let c := r0.1
  if c = 27 then
    let r1 := readInput r0.2
    let c1 := r1.1
    let r2 := readInput r1.2
    let c2 := r2.1
    if c1 = 91 then
      if 48 < c2 ∧ c2 ≤ 57 then
        let r3 := readInput r2.2
        let c3 := r3.1
        if c3 = 126 then
          if c2 = 49 then editorKeyCode .home
          else if c2 = 51 then editorKeyCode .delete
          else if c2 = 52 then editorKeyCode .endKey
          else if c2 = 53 then editorKeyCode .pageUp
          else if c2 = 54 then editorKeyCode .pageDown
          else if c2 = 55 then editorKeyCode .home
          else if c2 = 56 then editorKeyCode .endKey
          else c
        else c
      else
        if c2 = 65 then editorKeyCode .up
        else if c2 = 66 then editorKeyCode .down
        else if c2 = 67 then editorKeyCode .right
        else if c2 = 68 then editorKeyCode .left
        else if c2 = 72 then editorKeyCode .home
        else if c2 = 70 then editorKeyCode .endKey
        else c
    else if c1 = 79 then
      if c2 = 72 then editorKeyCode .home
      else if c2 = 70 then editorKeyCode .endKey
      else c
    else c
  else c

/-- fn move_cursor: apply one EditorKey to the cursor.  Left and Up stop at
0; Down advances while cursor_y < num_rows; Right is unbounded; PageUp,
PageDown, Home and End snap to the screen edges; Delete falls to the
catch-all arm and does nothing. -/
def moveCursor (editor : EditorConfig) (key : EditorKey) : EditorConfig :=
  match key with
  | .left => if 0 < editor.cursor_x then { editor with cursor_x := editor.cursor_x - 1 } else editor
  | .right => { editor with cursor_x := editor.cursor_x + 1 }
  | .up => if 0 < editor.cursor_y then { editor with cursor_y := editor.cursor_y - 1 } else editor
  | .down => if editor.cursor_y < editor.num_rows then { editor with cursor_y := editor.cursor_y + 1 } else editor
  | .pageUp => { editor with cursor_y := 0 }
  | .pageDown => { editor with cursor_y := editor.screen_rows - 1 }
  | .home => { editor with cursor_x := 0 }
  | .endKey => { editor with cursor_x := editor.screen_cols - 1 }
  | .delete => editor

/-- The two sequential offset adjustments of fn scroll_screen for one axis:
pull the offset back to the cursor, then push it forward so the cursor is
strictly inside the window. -/
def scrollOffset (cursor screen off : Nat) : Nat :=
  let off1 := if cursor < off then cursor else off
  if off1 + screen ≤ cursor then cursor - screen + 1 else off1

/-- fn scroll_screen: adjust row_offset from cursor_y and screen_rows, and
col_offset from cursor_x and screen_cols. -/
def scrollScreen (editor : EditorConfig) : EditorConfig :=
  { editor with
    row_offset := scrollOffset editor.cursor_y editor.screen_rows editor.row_offset
    col_offset := scrollOffset editor.cursor_x editor.screen_cols editor.col_offset }

/-- An observable side effect on the terminal or the process. -/
inductive TermAction where
  | write (s : String)
  | flushStdout
  | restoreMode
  | exitProcess (code : Nat)
  | panicWith (msg : String)
deriving DecidableEq, Repr

/-- fn clear_and_reset_cursor (stdout variant): clear the screen, home the
cursor, flush. -/
def clearAndResetActions : List TermAction :=
  [.write CLEAR_SCREEN, .write CURSOR_HOME, .flushStdout]

/-- fn die: clear the screen and reset the cursor, then panic with the
diagnostic.  The disable_raw_mode call in the source is commented out, so
no restoreMode action occurs. -/
def dieActions (msg : String) : List TermAction :=
  clearAndResetActions ++ [.panicWith msg]

/-- Outcome of one process_keypress call: terminate with the listed side
effects, or keep looping with the new editor state. -/
inductive StepResult where
  | quit (actions : List TermAction)
  | cont (editor : EditorConfig)
deriving DecidableEq, Repr

/-- The side effects of the quit branch of fn process_keypress:
clear_and_reset_cursor, disable_raw_mode, exit(0). -/
def quitActions : List TermAction :=
  clearAndResetActions ++ [.restoreMode, .exitProcess 0]

/-- The dispatch of fn process_keypress on an already decoded key code:
Ctrl-Q quits, code 0 (read timeout) is a no-op, and otherwise the code is
classified by EditorKey::try_from and, on success, applied by move_cursor. -/
def processKey (editor : EditorConfig) (c : Nat) : StepResult :=
  if isCntrl c ∧ c = ctrlKey 113 then
    .quit quitActions
  else if c = 0 then
    .cont editor
  else
    match editorKeyTryFrom c with
    | some key => .cont (moveCursor editor key)
    | none => .cont editor

/-- fn process_keypress: read_key then dispatch. -/
def processKeypress (editor : EditorConfig) (input : List Nat) : StepResult :=
  processKey editor (readKey input)

/-- First parse loop of fn get_cursor_position: accumulate decimal digits of
the row until a semicolon (59), which is consumed, or the buffer ends. -/
def parseRowLoop : List Nat → Nat → Nat × List Nat
  | [], row => (row, [])
  | b :: rest, row =>
    if b = 59 then (row, rest) else parseRowLoop rest (row * 10 + (b - 48))

/-- Second parse loop of fn get_cursor_position: accumulate decimal digits
of the column until an R (82) or the end of the buffer. -/
def parseColLoop : List Nat → Nat → Nat
  | [], col => col
  | b :: rest, col =>
    if b = 82 then col else parseColLoop rest (col * 10 + (b - 48))

/-- fn get_cursor_position on the 16-byte reply buffer (the unread tail is
zero-filled).  A buffer not starting with ESC (27) followed by an open
bracket (91) dies; otherwise the source returns the pair (col, row). -/
def getCursorPosition (buf : List Nat) : Except String (Nat × Nat) :=
  match buf with
  | b0 :: b1 :: rest =>
    if b0 ≠ 27 ∨ b1 ≠ 91 then
      .error "unexpected output reading cursor position"
    else
      let pr := parseRowLoop rest 0
      .ok (parseColLoop pr.2 0, pr.1)
  | _ => .error "unexpected output reading cursor position"

/-- The welcome banner string: format of "Teditor -- version" and VERSION. -/
def welcomeMessage : List Char := "Teditor -- version 0.0.1".toList

/-- The welcome branch of fn editor_draw_rows: truncate the banner to the
screen width, or centre it behind a tilde and padding spaces. -/
def welcomeRow (editor : EditorConfig) : List Char :=
  if editor.screen_cols < welcomeMessage.length then
    welcomeMessage.take editor.screen_cols
  else
    let padding := (editor.screen_cols - welcomeMessage.length) / 2
    if 0 < padding then
      '~' :: List.replicate (padding - 1) ' ' ++ welcomeMessage
    else
      welcomeMessage

/-- The text fn editor_draw_rows emits for screen row y, before the
CLEAR_LINE sequence: the welcome banner or a tilde when no buffer row is at
row_offset + y, and otherwise the characters of that row from col_offset on
(the source slices chars[col_offset..] without truncating to the screen
width; the slice is taken only when size - col_offset, saturating, is
positive). -/
def rowText (editor : EditorConfig) (y : Nat) : List Char :=
  let file_row := y + editor.row_offset
  if editor.num_rows ≤ file_row then
    if editor.num_rows = 0 ∧ y = editor.screen_rows / 3 then
      welcomeRow editor
    else
      ['~']
  else
    let row := editor.rows.getD file_row ⟨0, []⟩
    let len := row.size - editor.col_offset
    if 0 < len then row.chars.drop editor.col_offset else []

/-- fn editor_draw_rows: concatenate every screen row's text, each followed
by CLEAR_LINE, with a CRLF between rows but not after the last. -/
def editorDrawRows (editor : EditorConfig) : List Char :=
  ((List.range editor.screen_rows).map (fun y =>
    rowText editor y ++ CLEAR_LINE.toList ++
      (if y < editor.screen_rows - 1 then ['\r', '\n'] else []))).flatten

/-- A mid-buffer editor state used as a concrete test input. -/
def eMid : EditorConfig :=
  { screen_rows := 10, screen_cols := 10, cursor_x := 3, cursor_y := 5,
    num_rows := 8, rows := List.replicate 8 ⟨1, ['a']⟩, row_offset := 0, col_offset := 0 }

/-- A one-line buffer with size 5 line on a 2-column screen, a concrete
test input for the renderer. -/
def eTrunc : EditorConfig :=
  { screen_rows := 1, screen_cols := 2, cursor_x := 0, cursor_y := 0,
    num_rows := 1, rows := [⟨5, "abcde".toList⟩], row_offset := 0, col_offset := 0 }

/-- A one-line buffer with a nonzero column offset, a concrete test input
for the renderer. -/
def eSlice : EditorConfig :=
  { screen_rows := 1, screen_cols := 80, cursor_x := 0, cursor_y := 0,
    num_rows := 1, rows := [⟨5, "abcde".toList⟩], row_offset := 0, col_offset := 2 }

/-- A one-line buffer with the cursor on the last (only) buffer row. -/
def eOneRow : EditorConfig :=
  { screen_rows := 10, screen_cols := 10, cursor_x := 0, cursor_y := 0,
    num_rows := 1, rows := [⟨1, ['a']⟩], row_offset := 0, col_offset := 0 }

/-- An empty-buffer editor state with the cursor at the origin. -/
def eEmptyBuf : EditorConfig :=
  { screen_rows := 10, screen_cols := 10, cursor_x := 0, cursor_y := 0,
    num_rows := 0, rows := [], row_offset := 0, col_offset := 0 }

/-- An editor state whose cursor lies outside the prior viewport on both
axes, a concrete test input for the scroll algorithm. -/
def eScroll : EditorConfig :=
  { screen_rows := 2, screen_cols := 3, cursor_x := 9, cursor_y := 5,
    num_rows := 5, rows := List.replicate 5 ⟨1, ['a']⟩, row_offset := 0, col_offset := 0 }

lemma scrollOffset_window (cursor screen off : Nat) (hs : 1 ≤ screen) :
    scrollOffset cursor screen off ≤ cursor ∧
    cursor < scrollOffset cursor screen off + screen := by
  simp only [scrollOffset]
  split_ifs <;> omega

lemma scrollOffset_idem (cursor screen off : Nat) :
    scrollOffset cursor screen (scrollOffset cursor screen off) =
      scrollOffset cursor screen off := by
  simp only [scrollOffset]
  split_ifs <;> omega

/-- C1: for every screen with rows ≥ 1 and cols ≥ 1, every prior offsets
and every cursor within buffer bounds, one application of scroll_screen
leaves row_offset ≤ cursor_y < row_offset + screen_rows and
col_offset ≤ cursor_x < col_offset + screen_cols. -/
theorem scroll_keeps_cursor_in_window (e : EditorConfig)
    (hr : 1 ≤ e.screen_rows) (hc : 1 ≤ e.screen_cols)
    (hcur : e.cursor_y ≤ e.num_rows) :
    (scrollScreen e).row_offset ≤ e.cursor_y ∧
    e.cursor_y < (scrollScreen e).row_offset + e.screen_rows ∧
    (scrollScreen e).col_offset ≤ e.cursor_x ∧
    e.cursor_x < (scrollScreen e).col_offset + e.screen_cols := by
  have h1 := scrollOffset_window e.cursor_y e.screen_rows e.row_offset hr
  have h2 := scrollOffset_window e.cursor_x e.screen_cols e.col_offset hc
  exact ⟨h1.1, h1.2, h2.1, h2.2⟩

/-- Witness for C1 at the concrete state eScroll. -/
theorem scroll_keeps_cursor_in_window_witness :
    (scrollScreen eScroll).row_offset ≤ eScroll.cursor_y ∧
    eScroll.cursor_y < (scrollScreen eScroll).row_offset + eScroll.screen_rows ∧
    (scrollScreen eScroll).col_offset ≤ eScroll.cursor_x ∧
    eScroll.cursor_x < (scrollScreen eScroll).col_offset + eScroll.screen_cols :=
  scroll_keeps_cursor_in_window eScroll (by decide) (by decide) (by decide)

/-- C8: scroll_screen is idempotent: a second application with the same
cursor and screen dimensions changes nothing. -/
theorem scrollScreen_idempotent (e : EditorConfig) :
    scrollScreen (scrollScreen e) = scrollScreen e := by
  cases e
  simp [scrollScreen, scrollOffset_idem]

/-- C5: the escape sequences ESC [ A, ESC [ B, ESC [ C, ESC [ D decode to
Up, Down, Right, Left, and ESC [ 3 ~ and ESC [ 5 ~ decode to Delete and
PageUp. -/
theorem readKey_decodes_escape_sequences :
    readKey [27, 91, 65] = editorKeyCode .up ∧
    readKey [27, 91, 66] = editorKeyCode .down ∧
    readKey [27, 91, 67] = editorKeyCode .right ∧
    readKey [27, 91, 68] = editorKeyCode .left ∧
    readKey [27, 91, 51, 126] = editorKeyCode .delete ∧
    readKey [27, 91, 53, 126] = editorKeyCode .pageUp := by
  decide

/-- C9: the well-formed reply ESC [ 2 4 ; 8 0 R parses to row 24 and
column 80 (the source returns the pair (col, row)), and any 16-byte reply
whose first byte is not 27 or whose second byte is not 91 is a fatal
parse error. -/
theorem getCursorPosition_parse :
    getCursorPosition [27, 91, 50, 52, 59, 56, 48, 82, 0, 0, 0, 0, 0, 0, 0, 0] =
      .ok (80, 24) ∧
    ∀ b0 b1 rest, (b0 :: b1 :: rest : List Nat).length = 16 →
      b0 ≠ 27 ∨ b1 ≠ 91 →
      getCursorPosition (b0 :: b1 :: rest) =
        .error "unexpected output reading cursor position" := by
  constructor
  · rfl
  · intro b0 b1 rest hlen hbad
    simp only [getCursorPosition]
    rw [if_pos hbad]

/-- Witness for C9 at a concrete malformed reply buffer. -/
theorem getCursorPosition_parse_witness :
    getCursorPosition [0, 91, 50, 52, 59, 56, 48, 82, 0, 0, 0, 0, 0, 0, 0, 0] =
      .error "unexpected output reading cursor position" :=
  getCursorPosition_parse.2 0 91 [50, 52, 59, 56, 48, 82, 0, 0, 0, 0, 0, 0, 0, 0]
    (by decide) (Or.inl (by decide))

/-- C6: the single byte 0x11 decodes to itself (Ctrl-Q); on it the
controller quits, clearing the screen, homing the cursor, restoring the
terminal mode and exiting with status 0; and every other key code
continues the loop. -/
theorem ctrlQ_is_only_quit :
    readKey [17] = 17 ∧
    (∀ e : EditorConfig, processKey e 17 =
      .quit [.write CLEAR_SCREEN, .write CURSOR_HOME, .flushStdout,
             .restoreMode, .exitProcess 0]) ∧
    (∀ (e : EditorConfig) (c : Nat), c ≠ 17 → ∃ e2, processKey e c = .cont e2) := by
  refine ⟨by decide, fun e => rfl, ?_⟩
  intro e c hc
  unfold processKey
  have h17 : ctrlKey 113 = 17 := by decide
  rw [h17]
  rw [if_neg (fun h => hc h.2)]
  by_cases h0 : c = 0
  · rw [if_pos h0]
    exact ⟨e, rfl⟩
  · rw [if_neg h0]
    cases h : editorKeyTryFrom c with
    | some key => exact ⟨moveCursor e key, rfl⟩
    | none => exact ⟨e, rfl⟩

/-- Witness for C6: a non-quit key code continues the loop. -/
theorem ctrlQ_is_only_quit_witness :
    ∃ e2, processKey eMid 5 = .cont e2 :=
  ctrlQ_is_only_quit.2.2 eMid 5 (by decide)

/-- C2 evidence: read_key decodes PageUp, PageDown, Home and End, but
EditorKey::try_from rejects their discriminants (1004-1007), so
process_keypress never reaches move_cursor for them: at the concrete state
eMid, whose cursor_y is 5 and cursor_x is 3, processing ESC [ 5 ~ leaves
the state unchanged instead of snapping the row to 0, and likewise for the
other three keys. -/
theorem special_keys_never_reach_move_cursor :
    readKey [27, 91, 53, 126] = editorKeyCode .pageUp ∧
    readKey [27, 91, 54, 126] = editorKeyCode .pageDown ∧
    readKey [27, 91, 49, 126] = editorKeyCode .home ∧
    readKey [27, 91, 52, 126] = editorKeyCode .endKey ∧
    editorKeyTryFrom (editorKeyCode .pageUp) = none ∧
    editorKeyTryFrom (editorKeyCode .pageDown) = none ∧
    editorKeyTryFrom (editorKeyCode .home) = none ∧
    editorKeyTryFrom (editorKeyCode .endKey) = none ∧
    processKeypress eMid [27, 91, 53, 126] = .cont eMid ∧
    processKeypress eMid [27, 91, 54, 126] = .cont eMid ∧
    processKeypress eMid [27, 91, 49, 126] = .cont eMid ∧
    processKeypress eMid [27, 91, 52, 126] = .cont eMid ∧
    eMid.cursor_y = 5 ∧ eMid.cursor_x = 3 := by
  decide

/-- C3 as stated is false: the fatal-error path of fn die never restores
the terminal mode (the disable_raw_mode call is commented out in the
source), shown here at the concrete diagnostic of the read error path. -/
theorem die_does_not_restore_cex :
    TermAction.restoreMode ∉ dieActions "reading input" := by
  decide

/-- C3 amended: on every fatal error the program first clears the screen
and resets the cursor, then terminates abnormally with a diagnostic naming
the failing operation; terminal mode restoration is not attempted on this
path. -/
theorem die_clears_resets_then_panics (msg : String) :
    dieActions msg =
      [.write CLEAR_SCREEN, .write CURSOR_HOME, .flushStdout, .panicWith msg] ∧
    TermAction.restoreMode ∉ dieActions msg := by
  refine ⟨rfl, ?_⟩
  intro h
  simp [dieActions, clearAndResetActions] at h

/-- C7 as stated is false: at the concrete one-line buffer eOneRow the
cursor sits on the last buffer row (row 0 = line_count - 1) and MoveDown
advances it to row 1 rather than leaving it unchanged. -/
theorem moveDown_at_last_row_cex :
    eOneRow.cursor_y = eOneRow.num_rows - 1 ∧
    (moveCursor eOneRow .down).cursor_y = 1 ∧
    (moveCursor eOneRow .down).cursor_y ≠ eOneRow.cursor_y := by
  decide

/-- C7 amended: MoveUp at row 0 leaves the row unchanged; MoveDown leaves
the row unchanged exactly when cursor_y ≥ num_rows (the position one past
the last line), and increments it whenever cursor_y < num_rows, so at the
last buffer row it advances to num_rows. -/
theorem moveCursor_vertical_bounds (e : EditorConfig) :
    (e.cursor_y = 0 → (moveCursor e .up).cursor_y = 0) ∧
    (e.num_rows ≤ e.cursor_y → (moveCursor e .down).cursor_y = e.cursor_y) ∧
    (e.cursor_y < e.num_rows → (moveCursor e .down).cursor_y = e.cursor_y + 1) := by
  refine ⟨fun h => ?_, fun h => ?_, fun h => ?_⟩
  · simp only [moveCursor]
    rw [if_neg (by omega)]
    exact h
  · simp only [moveCursor]
    rw [if_neg (by omega)]
  · simp only [moveCursor]
    rw [if_pos h]

/-- Witness for C7 amended: at the empty buffer MoveUp and MoveDown leave
row 0 unchanged; at the one-line buffer MoveDown advances row 0 to 1. -/
theorem moveCursor_vertical_bounds_witness :
    (moveCursor eEmptyBuf .up).cursor_y = 0 ∧
    (moveCursor eEmptyBuf .down).cursor_y = eEmptyBuf.cursor_y ∧
    (moveCursor eOneRow .down).cursor_y = eOneRow.cursor_y + 1 :=
  ⟨(moveCursor_vertical_bounds eEmptyBuf).1 (by decide),
   (moveCursor_vertical_bounds eEmptyBuf).2.1 (by decide),
   (moveCursor_vertical_bounds eOneRow).2.2 (by decide)⟩

/-- C10: a single plain byte h, j, k, l, D, B, A or C decodes to itself,
is accepted by EditorKey::try_from, and the controller applies the
corresponding cursor movement: left for h and D, down for j and B, up for
k and A, right for l and C. -/
theorem plain_letter_bytes_move_cursor (e : EditorConfig) :
    (readKey [104] = 104 ∧ readKey [68] = 68 ∧ readKey [106] = 106 ∧
     readKey [66] = 66 ∧ readKey [107] = 107 ∧ readKey [65] = 65 ∧
     readKey [108] = 108 ∧ readKey [67] = 67) ∧
    (editorKeyTryFrom 104 = some .left ∧ editorKeyTryFrom 68 = some .left ∧
     editorKeyTryFrom 106 = some .down ∧ editorKeyTryFrom 66 = some .down ∧
     editorKeyTryFrom 107 = some .up ∧ editorKeyTryFrom 65 = some .up ∧
     editorKeyTryFrom 108 = some .right ∧ editorKeyTryFrom 67 = some .right) ∧
    processKey e 104 = .cont (moveCursor e .left) ∧
    processKey e 68 = .cont (moveCursor e .left) ∧
    processKey e 106 = .cont (moveCursor e .down) ∧
    processKey e 66 = .cont (moveCursor e .down) ∧
    processKey e 107 = .cont (moveCursor e .up) ∧
    processKey e 65 = .cont (moveCursor e .up) ∧
    processKey e 108 = .cont (moveCursor e .right) ∧
    processKey e 67 = .cont (moveCursor e .right) :=
  ⟨by decide, by decide, rfl, rfl, rfl, rfl, rfl, rfl, rfl, rfl⟩

/-- C4 as stated is false: at the concrete state eTrunc the buffer row
"abcde" exists at row_offset + 0, yet the renderer emits all five
characters on a 2-column screen — the slice is not truncated to the
screen width. -/
theorem draw_row_no_truncation_cex :
    rowText eTrunc 0 = "abcde".toList ∧
    eTrunc.screen_cols = 2 ∧
    ¬(rowText eTrunc 0).length ≤ eTrunc.screen_cols := by
  decide

/-- C4 amended: for every visible screen row whose buffer row exists at
row_offset + y, the renderer emits the whole buffer line slice starting at
col_offset, without truncating it to the screen width (and the slice is
empty when col_offset reaches the line length), provided num_rows counts
the rows and each row's size matches its character count. -/
theorem draw_row_emits_untruncated_slice (e : EditorConfig) (y : Nat)
    (hn : e.num_rows = e.rows.length)
    (hs : ∀ r ∈ e.rows, r.size = r.chars.length)
    (hy : y + e.row_offset < e.num_rows) :
    rowText e y =
      ((e.rows.getD (y + e.row_offset) ⟨0, []⟩).chars).drop e.col_offset := by
  simp only [rowText]
  rw [if_neg (by omega)]
  have hget : e.rows.getD (y + e.row_offset) ⟨0, []⟩ =
      e.rows.get ⟨y + e.row_offset, by omega⟩ := by
    rw [List.getD_eq_getElem _ _ (by omega)]
    simp
  have hmem : e.rows.getD (y + e.row_offset) ⟨0, []⟩ ∈ e.rows := by
    rw [hget]
    exact List.get_mem _ _ _
  have hsz := hs _ hmem
  by_cases hco : e.col_offset < (e.rows.getD (y + e.row_offset) ⟨0, []⟩).size
  · rw [if_pos (by omega)]
  · rw [if_neg (by omega)]
    rw [List.drop_eq_nil_of_le (by omega)]

/-- Witness for C4 amended at the concrete state eSlice: the emitted text
is the line from column offset 2 to its end. -/
theorem draw_row_emits_untruncated_slice_witness :
    rowText eSlice 0 =
      ((eSlice.rows.getD (0 + eSlice.row_offset) ⟨0, []⟩).chars).drop eSlice.col_offset :=
  draw_row_emits_untruncated_slice eSlice 0 (by decide) (by decide) (by decide)
